import Mathlib

/-!
# Verification of the authenticated HTTP client (`src/lib/api-client.ts`)

Shallow embedding of the `ApiClient` class: derived storage keys, cookie
set-options, the token store (the cookie collaborator, modelled as two
independently keyed entries), `handleTokenRefresh`, `processQueue`, and the
request/response interceptors installed by `createApiClient`.  The
single-threaded event loop is modelled by delivering events (401 responses,
refresh completion) sequentially to explicit step functions over a
`ClientState`.
-/

namespace ApiClientSpec

/-- A JavaScript value at the token boundary: either `undefined` or a string.
`response.data.accessToken` evaluates to `undefined` when the property is
absent, and `cookies.set` can be handed such a value. -/
inductive JsVal where
  | undef : JsVal
  | str : String → JsVal
deriving DecidableEq, Repr

/-- JavaScript truthiness of a token value: `undefined` and `""` are falsy. -/
def JsVal.truthy : JsVal → Bool
  | .undef => false
  | .str s => !(s == "")

/-- Template-literal interpolation `${v}`: `undefined` prints as "undefined". -/
def JsVal.interp : JsVal → String
  | .undef => "undefined"
  | .str s => s

/-- Embeds an optional JSON string property as the JS value the property
access yields (`undefined` when absent). -/
def optToJs : Option String → JsVal
  | none => JsVal.undef
  | some s => JsVal.str s

/-- The constructor arguments of `ApiClient` (`ApiClientProps`). -/
structure ApiClientProps where
  env : String
  apiRefreshUrl : String
  tokenNamespace : Option String
  apiAuthBaseUrl : String
  apiBBaseUrl : Option String
deriving DecidableEq, Repr

/-- The key namespace part `` `${props.tokenNamespace ?? "putty"}_` `` from the constructor. -/
def nsPart (props : ApiClientProps) : String :=
  (props.tokenNamespace.getD "putty") ++ "_"

/-- The environment suffix `` props.env === "production" ? "" : `_${props.env}` `` from the
constructor. -/
def envSuffix (props : ApiClientProps) : String :=
  if props.env = "production" then "" else "_" ++ props.env

/-- The key `this.ACCESS_TOKEN_KEY` as derived by the constructor. -/
def ACCESS_TOKEN_KEY (props : ApiClientProps) : String :=
  nsPart props ++ "accessToken" ++ envSuffix props

/-- The key `this.REFRESH_TOKEN_KEY` as derived by the constructor. -/
def REFRESH_TOKEN_KEY (props : ApiClientProps) : String :=
  nsPart props ++ "refreshToken" ++ envSuffix props

/-- The browser-environment facts `getCookieSetOptions` reads:
`typeof window !== "undefined"`, `document.location.protocol` (only
meaningful in a browser), and `getDomain(document.location.href)`
(`none` models a `null` registrable domain). -/
structure BrowserEnv where
  isCSR : Bool
  protocol : String
  registrableDomain : Option String
deriving DecidableEq, Repr

/-- The cookie set-options record produced by `getCookieSetOptions`
(`domain := none` models the spread `...(domain ? { domain } : {})`
omitting the attribute). -/
structure CookieSetOptions where
  path : String
  secure : Bool
  domain : Option String
deriving DecidableEq, Repr

/-- Function `getCookieSetOptions` from the source: path `/`, `secure` iff in a
browser AND `document.location.protocol === "https"` (note: the literal
`"https"`, compared with the raw protocol string), `domain` spread in only
when truthy. -/
def getCookieSetOptions (env : BrowserEnv) : CookieSetOptions :=
  let domain : Option String := if env.isCSR then env.registrableDomain else none
  { path := "/"
    secure := env.isCSR && (env.protocol == "https")
    domain :=
      match domain with
      | some d => if d == "" then none else some d
      | none => none }

/-- The two cookie entries the client reads and writes, keyed by
`ACCESS_TOKEN_KEY` / `REFRESH_TOKEN_KEY` (distinct keys, see the key
theorems).  `none` means the entry is absent from storage; a present entry
holds exactly the value that was passed to `cookies.set`. -/
structure TokenStore where
  access : Option JsVal
  refresh : Option JsVal
deriving DecidableEq, Repr

/-- Reader `getAccessToken`: `cookies.get(ACCESS_TOKEN_KEY)`, `undefined` when
absent. -/
def getAccessToken (ts : TokenStore) : JsVal := ts.access.getD JsVal.undef

/-- Reader `getRefreshToken`: `cookies.get(REFRESH_TOKEN_KEY)`, `undefined` when
absent. -/
def getRefreshToken (ts : TokenStore) : JsVal := ts.refresh.getD JsVal.undef

/-- Writer `setAccessToken`: `cookies.set(ACCESS_TOKEN_KEY, token)`. -/
def setAccessToken (v : JsVal) (ts : TokenStore) : TokenStore :=
  { ts with access := some v }

/-- Writer `setRefreshToken`: `cookies.set(REFRESH_TOKEN_KEY, token, {maxAge: 7d})`. -/
def setRefreshToken (v : JsVal) (ts : TokenStore) : TokenStore :=
  { ts with refresh := some v }

/-- Removal `clearTokens`: `cookies.remove` on both keys. -/
def clearTokens (_ts : TokenStore) : TokenStore :=
  { access := none, refresh := none }

/-- The parsed JSON body of a successful refresh response; `none` models an
absent property. -/
structure RefreshBody where
  accessToken : Option String
  refreshToken : Option String
deriving DecidableEq, Repr

/-- Outcome of the `refreshApiClient.post` call: `failure` covers a network
error and a non-success status (axios rejects on both), `success` a 2xx
response with its parsed body. -/
inductive RefreshCall where
  | failure : RefreshCall
  | success : RefreshBody → RefreshCall
deriving DecidableEq, Repr

/-- The reason a refresh attempt rejects. -/
inductive RefreshErr where
  | noRefreshToken : RefreshErr
  | callFailed : RefreshErr
deriving DecidableEq, Repr

/-- Function `handleTokenRefresh` from the source, as a function of the token store
and the outcome of the refresh HTTP call.  Returns the value the promise
settles with (`ok` = resolves, `error` = rejects) and the token store after
the call.  Mirrors the source exactly: the `catch` block runs `clearTokens`
and rethrows; the success path stores `response.data.accessToken` with NO
check that it is present, and stores `response.data.refreshToken` only when
truthy. -/
def handleTokenRefresh (ts : TokenStore) (call : RefreshCall) :
    Except RefreshErr JsVal × TokenStore :=
  let refreshToken := getRefreshToken ts
  if !refreshToken.truthy then
    (Except.error RefreshErr.noRefreshToken, clearTokens ts)
  else
    match call with
    | RefreshCall.failure => (Except.error RefreshErr.callFailed, clearTokens ts)
    | RefreshCall.success body =>
        let newAccessToken := optToJs body.accessToken
        let newRefreshToken := optToJs body.refreshToken
        let ts1 := setAccessToken newAccessToken ts
        let ts2 := if newRefreshToken.truthy then setRefreshToken newRefreshToken ts1 else ts1
        (Except.ok newAccessToken, ts2)

/-- A request configuration as the interceptors see it: `url`, the
`Authorization` header (absent or a string), and the `_retry` marker. -/
structure Req where
  url : String
  authorization : Option String
  retry : Bool
deriving DecidableEq, Repr

/-- The request interceptor (createApiClient, lines 151-158): read the
access token; when truthy, set `Authorization: Bearer <token>`; otherwise
pass the config through unchanged.  A total function: it never rejects. -/
def requestInterceptor (ts : TokenStore) (config : Req) : Req :=
  let token := getAccessToken ts
  if token.truthy then
    { config with authorization := some ("Bearer " ++ token.interp) }
  else config

/-- The per-instance mutable fields of the client that the response
interceptor touches: the cookie store, `isRefreshing`, and `failedQueue`.
Each queue slot is the request whose continuation was pushed. -/
structure ClientState where
  store : TokenStore
  isRefreshing : Bool
  failedQueue : List Req
deriving DecidableEq, Repr

/-- What the response-error interceptor does with one failed response. -/
inductive RespAction where
  /-- Rejection `Promise.reject(error)`: the error propagates to the caller unchanged
  (non-401 status, already-retried request, or the login path). -/
  | rejectOriginal : RespAction
  /-- The request's continuation was pushed onto `failedQueue`. -/
  | enqueued : RespAction
  /-- The request was marked `_retry`, `isRefreshing` was set, and this
  request now performs the single refresh attempt. -/
  | becameRefresher : RespAction
deriving DecidableEq, Repr

/-- The response-error interceptor (createApiClient, lines 165-205) run on
one rejected response, as one atomic event-loop turn.  `status` is
`error.response?.status`.  Returns the action taken, the (possibly
`_retry`-marked) request, and the updated client state. -/
def onResponseError (st : ClientState) (status : Option Nat) (req : Req) :
    RespAction × Req × ClientState :=
  if status = some 401 ∧ req.retry = false then
    if req.url = "/api/auth/login" then
      (RespAction.rejectOriginal, req, st)
    else if st.isRefreshing then
      (RespAction.enqueued, req,
       { st with failedQueue := st.failedQueue ++ [req] })
    else
      (RespAction.becameRefresher, { req with retry := true },
       { st with isRefreshing := true })
  else
    (RespAction.rejectOriginal, req, st)

/-- Sequential delivery of a batch of 401 responses to the interceptor,
modelling N requests failing concurrently before any refresh completes:
the single-threaded event loop runs the handler once per response, in
arrival order. -/
def run401s (st : ClientState) (reqs : List Req) : List RespAction × ClientState :=
  match reqs with
  | [] => ([], st)
  | r :: rs =>
      let step := onResponseError st (some 401) r
      let rest := run401s step.2.2 rs
      (step.1 :: rest.1, rest.2)

/-- How one blocked request's promise chain finally settles. -/
inductive Settled where
  /-- the original request was re-dispatched with this configuration -/
  | replayed : Req → Settled
  /-- the chain rejected with this refresh failure -/
  | rejected : RefreshErr → Settled
deriving DecidableEq, Repr

/-- Replaying a request with token value `tok`: the continuation assigns
`` originalRequest.headers.Authorization = `Bearer ${token}` `` and then
re-dispatches through the instance, whose request interceptor runs against
the post-refresh store. -/
def replayWith (ts : TokenStore) (tok : JsVal) (r : Req) : Req :=
  requestInterceptor ts { r with authorization := some ("Bearer " ++ tok.interp) }

/-- The settlements produced by one refresh cycle: the refresher's own
request and one settlement per queued continuation, in arrival order. -/
structure CycleResult where
  original : Settled
  queued : List Settled
deriving DecidableEq, Repr

/-- The refresher's `try/catch/finally` (createApiClient, lines 191-201)
together with `processQueue` (lines 87-99), run when `handleTokenRefresh`
settles.  `st` is the client state at that moment (the queue holds every
request that failed 401 while the refresh was in flight), `originalReq`
the refresher's request, `call` the refresh HTTP call's outcome.  On
success: set the original's header, resolve every queued continuation with
the new token (each replays through the interceptor), replay the original.
On failure: reject every queued continuation and the original with the
refresh error.  Either way `processQueue` empties the queue and the
`finally` clears `isRefreshing`. -/
def refreshCycle (st : ClientState) (originalReq : Req) (call : RefreshCall) :
    CycleResult × ClientState :=
  match handleTokenRefresh st.store call with
  | (Except.ok tok, store') =>
      ({ original := Settled.replayed (replayWith store' tok originalReq)
         queued := st.failedQueue.map (fun r => Settled.replayed (replayWith store' tok r)) },
       { store := store', isRefreshing := false, failedQueue := [] })
  | (Except.error e, store') =>
      ({ original := Settled.rejected e
         queued := st.failedQueue.map (fun _ => Settled.rejected e) },
       { store := store', isRefreshing := false, failedQueue := [] })

/-! ## Helper lemmas on strings and key derivation -/

theorem str_append_left_cancel {s t u : String} (h : s ++ t = s ++ u) : t = u := by
  apply String.ext
  have hd := congrArg String.data h
  rw [String.data_append, String.data_append] at hd
  exact List.append_cancel_left hd

theorem envSuffix_inj {p q : ApiClientProps} (h : envSuffix p = envSuffix q) :
    p.env = q.env := by
  unfold envSuffix at h
  by_cases hp : p.env = "production" <;> by_cases hq : q.env = "production"
  · rw [hp, hq]
  · rw [if_pos hp, if_neg hq] at h
    have hl := congrArg String.length h
    rw [String.length_append] at hl
    have h0 : ("" : String).length = 0 := rfl
    have h1 : ("_" : String).length = 1 := rfl
    rw [h0, h1] at hl
    omega
  · rw [if_neg hp, if_pos hq] at h
    have hl := congrArg String.length h
    rw [String.length_append] at hl
    have h0 : ("" : String).length = 0 := rfl
    have h1 : ("_" : String).length = 1 := rfl
    rw [h0, h1] at hl
    omega
  · rw [if_neg hp, if_neg hq] at h
    exact str_append_left_cancel h

theorem access_part_ne_refresh_part (s t : String) :
    "accessToken" ++ s ≠ "refreshToken" ++ t := by
  intro h
  have hd := congrArg String.data h
  rw [String.data_append, String.data_append] at hd
  have ha : "accessToken".data = 'a' :: "ccessToken".data := rfl
  have hr : "refreshToken".data = 'r' :: "efreshToken".data := rfl
  rw [ha, hr, List.cons_append, List.cons_append] at hd
  injection hd with h1 _
  exact absurd h1 (by decide)

theorem nsPart_congr {p q : ApiClientProps} (h : p.tokenNamespace = q.tokenNamespace) :
    nsPart p = nsPart q := by
  unfold nsPart
  rw [h]

theorem ACCESS_TOKEN_KEY_shape (p : ApiClientProps) :
    ACCESS_TOKEN_KEY p = nsPart p ++ ("accessToken" ++ envSuffix p) := by
  unfold ACCESS_TOKEN_KEY
  rw [String.append_assoc]

theorem REFRESH_TOKEN_KEY_shape (p : ApiClientProps) :
    REFRESH_TOKEN_KEY p = nsPart p ++ ("refreshToken" ++ envSuffix p) := by
  unfold REFRESH_TOKEN_KEY
  rw [String.append_assoc]

theorem access_key_inj_env {p q : ApiClientProps}
    (hns : p.tokenNamespace = q.tokenNamespace)
    (h : ACCESS_TOKEN_KEY p = ACCESS_TOKEN_KEY q) : p.env = q.env := by
  rw [ACCESS_TOKEN_KEY_shape, ACCESS_TOKEN_KEY_shape, nsPart_congr hns] at h
  exact envSuffix_inj (str_append_left_cancel (str_append_left_cancel h))

theorem refresh_key_inj_env {p q : ApiClientProps}
    (hns : p.tokenNamespace = q.tokenNamespace)
    (h : REFRESH_TOKEN_KEY p = REFRESH_TOKEN_KEY q) : p.env = q.env := by
  rw [REFRESH_TOKEN_KEY_shape, REFRESH_TOKEN_KEY_shape, nsPart_congr hns] at h
  exact envSuffix_inj (str_append_left_cancel (str_append_left_cancel h))

theorem access_key_ne_refresh_key {p q : ApiClientProps}
    (hns : p.tokenNamespace = q.tokenNamespace) :
    ACCESS_TOKEN_KEY p ≠ REFRESH_TOKEN_KEY q := by
  intro h
  rw [ACCESS_TOKEN_KEY_shape, REFRESH_TOKEN_KEY_shape, nsPart_congr hns] at h
  exact access_part_ne_refresh_part _ _ (str_append_left_cancel h)

/-! ## Claim theorems (storage keys, cookie options, refresh body, request interceptor) -/

/-- C7: the derived keys are `n ++ "_accessToken"` / `n ++ "_refreshToken"`
with suffix `"_" ++ e` exactly when `e ≠ "production"` (the namespace
defaulting to `"putty"`); key derivation is a function of the
configuration's namespace and environment alone; two environments under
the same namespace derive disjoint key pairs; and the staging/app example
derives `app_accessToken_staging` / `app_refreshToken_staging`. -/
theorem c7_key_derivation (p q : ApiClientProps)
    (hns : p.tokenNamespace = q.tokenNamespace) (he : p.env ≠ q.env) :
    (ACCESS_TOKEN_KEY p
        = (p.tokenNamespace.getD "putty") ++ "_accessToken"
            ++ (if p.env = "production" then "" else "_" ++ p.env) ∧
      REFRESH_TOKEN_KEY p
        = (p.tokenNamespace.getD "putty") ++ "_refreshToken"
            ++ (if p.env = "production" then "" else "_" ++ p.env)) ∧
    (∀ r s : ApiClientProps, r.env = s.env → r.tokenNamespace = s.tokenNamespace →
      ACCESS_TOKEN_KEY r = ACCESS_TOKEN_KEY s ∧
      REFRESH_TOKEN_KEY r = REFRESH_TOKEN_KEY s) ∧
    (ACCESS_TOKEN_KEY p ≠ ACCESS_TOKEN_KEY q ∧
     ACCESS_TOKEN_KEY p ≠ REFRESH_TOKEN_KEY q ∧
     REFRESH_TOKEN_KEY p ≠ ACCESS_TOKEN_KEY q ∧
     REFRESH_TOKEN_KEY p ≠ REFRESH_TOKEN_KEY q) ∧
    (ACCESS_TOKEN_KEY
        { env := "staging", apiRefreshUrl := "/refresh", tokenNamespace := some "app",
          apiAuthBaseUrl := "https://auth", apiBBaseUrl := none }
        = "app_accessToken_staging" ∧
     REFRESH_TOKEN_KEY
        { env := "staging", apiRefreshUrl := "/refresh", tokenNamespace := some "app",
          apiAuthBaseUrl := "https://auth", apiBBaseUrl := none }
        = "app_refreshToken_staging" ∧
     ACCESS_TOKEN_KEY
        { env := "production", apiRefreshUrl := "/refresh", tokenNamespace := none,
          apiAuthBaseUrl := "https://auth", apiBBaseUrl := none }
        = "putty_accessToken") := by
  refine ⟨⟨?_, ?_⟩, ?_, ⟨?_, ?_, ?_, ?_⟩, by decide, by decide, by decide⟩
  · unfold ACCESS_TOKEN_KEY nsPart envSuffix
    have hmid : (p.tokenNamespace.getD "putty" ++ "_") ++ "accessToken"
        = p.tokenNamespace.getD "putty" ++ "_accessToken" := by
      rw [String.append_assoc]
      congr 1
    rw [hmid]
  · unfold REFRESH_TOKEN_KEY nsPart envSuffix
    have hmid : (p.tokenNamespace.getD "putty" ++ "_") ++ "refreshToken"
        = p.tokenNamespace.getD "putty" ++ "_refreshToken" := by
      rw [String.append_assoc]
      congr 1
    rw [hmid]
  · intro r s h1 h2
    constructor
    · unfold ACCESS_TOKEN_KEY nsPart envSuffix
      rw [h1, h2]
    · unfold REFRESH_TOKEN_KEY nsPart envSuffix
      rw [h1, h2]
  · exact fun h => he (access_key_inj_env hns h)
  · exact access_key_ne_refresh_key hns
  · exact fun h => access_key_ne_refresh_key hns.symm h.symm
  · exact fun h => he (refresh_key_inj_env hns h)

/-- Witness for `c7_key_derivation` at a concrete configuration pair
(namespace `"app"`, environments `"staging"` and `"production"`). -/
theorem c7_key_derivation_witness :
    ACCESS_TOKEN_KEY
        { env := "staging", apiRefreshUrl := "/refresh", tokenNamespace := some "app",
          apiAuthBaseUrl := "https://auth", apiBBaseUrl := none }
      ≠ ACCESS_TOKEN_KEY
        { env := "production", apiRefreshUrl := "/refresh", tokenNamespace := some "app",
          apiAuthBaseUrl := "https://auth", apiBBaseUrl := none } :=
  (c7_key_derivation
    { env := "staging", apiRefreshUrl := "/refresh", tokenNamespace := some "app",
      apiAuthBaseUrl := "https://auth", apiBBaseUrl := none }
    { env := "production", apiRefreshUrl := "/refresh", tokenNamespace := some "app",
      apiAuthBaseUrl := "https://auth", apiBBaseUrl := none }
    rfl (by decide)).2.2.1.1

/-- C8 (code bug): on a standard HTTPS page the DOM gives
`document.location.protocol = "https:"` (trailing colon included), but the
source compares the protocol against the literal `"https"`, so the computed
set-options carry `secure := false` even there — against the claim that
`secure` is true exactly in a browser context under HTTPS.  Path and
domain behave as claimed. -/
theorem c8_secure_flag_false_on_https :
    getCookieSetOptions
        { isCSR := true, protocol := "https:", registrableDomain := some "example.com" }
      = { path := "/", secure := false, domain := some "example.com" } := by
  decide

/-- C2 (code bug): a 2xx refresh response whose body lacks `accessToken` is
NOT treated as a refresh failure: `handleTokenRefresh` resolves with the
JS value `undefined`, overwrites the stored access token with it, and
leaves the stored refresh token in place — it neither clears both tokens
nor rejects, contradicting the claim (and the function's own
`Promise<string>` signature). -/
theorem c2_missing_access_token_not_failure :
    handleTokenRefresh
        { access := some (JsVal.str "A1"), refresh := some (JsVal.str "R1") }
        (RefreshCall.success { accessToken := none, refreshToken := none })
      = (Except.ok JsVal.undef,
         { access := some JsVal.undef, refresh := some (JsVal.str "R1") }) := by
  rfl

/-- C9 counterexample: with the empty string stored as the access token,
the claim's universally quantified clause — a stored token `t` yields an
outbound header `"Bearer " ++ t` — fails: `""` is falsy in JS, so the
interceptor leaves the header absent. -/
theorem c9_counterexample :
    (requestInterceptor { access := some (JsVal.str ""), refresh := none }
        { url := "/data", authorization := none, retry := false }).authorization
      ≠ some ("Bearer " ++ "") := by
  decide

/-- C9 (amended): when no access token is stored — or the stored token is
the empty string, which JS truthiness treats as absent — the request
passes through unchanged with no authorization header added; when a
nonempty access token `t` is stored, the outbound authorization header
equals `"Bearer " ++ t` and the rest of the request is untouched; the
interceptor is a total function, so it never rejects the request. -/
theorem c9_request_interceptor (ts : TokenStore) (r : Req) :
    (ts.access = none → requestInterceptor ts r = r) ∧
    ((getAccessToken ts).truthy = false → requestInterceptor ts r = r) ∧
    (∀ t : String, ts.access = some (JsVal.str t) → t ≠ "" →
      (requestInterceptor ts r).authorization = some ("Bearer " ++ t) ∧
      (requestInterceptor ts r).url = r.url ∧
      (requestInterceptor ts r).retry = r.retry) := by
  refine ⟨?_, ?_, ?_⟩
  · intro h
    simp [requestInterceptor, getAccessToken, h, JsVal.truthy]
  · intro h
    simp [requestInterceptor, h]
  · intro t h ht
    have hts : (JsVal.str t).truthy = true := by
      simp [JsVal.truthy, ht]
    simp [requestInterceptor, getAccessToken, h, hts, JsVal.interp]

/-- Witness for `c9_request_interceptor`: a stored token `"T0"` produces
the header `Bearer T0` on a concrete request. -/
theorem c9_request_interceptor_witness :
    (requestInterceptor { access := some (JsVal.str "T0"), refresh := none }
        { url := "/data", authorization := none, retry := false }).authorization
      = some ("Bearer " ++ "T0") :=
  ((c9_request_interceptor { access := some (JsVal.str "T0"), refresh := none }
      { url := "/data", authorization := none, retry := false }).2.2
    "T0" rfl (by decide)).1

/-! ## Helper lemmas on the refresh protocol -/

theorem requestInterceptor_preserves (ts : TokenStore) (c : Req) :
    (requestInterceptor ts c).url = c.url ∧ (requestInterceptor ts c).retry = c.retry := by
  by_cases h : (getAccessToken ts).truthy <;> simp [requestInterceptor, h]

theorem replayWith_preserves (ts : TokenStore) (tok : JsVal) (r : Req) :
    (replayWith ts tok r).url = r.url ∧ (replayWith ts tok r).retry = r.retry := by
  unfold replayWith
  have h := requestInterceptor_preserves ts
    { r with authorization := some ("Bearer " ++ tok.interp) }
  simpa using h

theorem replayWith_auth (ts : TokenStore) (a : String) (r : Req)
    (h : ts.access = some (JsVal.str a)) :
    (replayWith ts (JsVal.str a) r).authorization = some ("Bearer " ++ a) := by
  by_cases he : a = ""
  · subst he
    simp [replayWith, requestInterceptor, getAccessToken, h, JsVal.truthy, JsVal.interp]
  · simp [replayWith, requestInterceptor, getAccessToken, h, JsVal.truthy, JsVal.interp, he]

theorem handleTokenRefresh_error_clear (ts : TokenStore) (call : RefreshCall)
    (e : RefreshErr) (h : (handleTokenRefresh ts call).1 = Except.error e) :
    (handleTokenRefresh ts call).2 = clearTokens ts := by
  cases hrt : (getRefreshToken ts).truthy with
  | false => simp [handleTokenRefresh, hrt]
  | true =>
      cases call with
      | failure => simp [handleTokenRefresh, hrt]
      | success body => simp [handleTokenRefresh, hrt] at h

theorem handleTokenRefresh_success_eq (ts : TokenStore) (body : RefreshBody) (a : String)
    (hrt : (getRefreshToken ts).truthy = true) (ha : body.accessToken = some a) :
    handleTokenRefresh ts (RefreshCall.success body)
      = (Except.ok (JsVal.str a),
         { access := some (JsVal.str a)
           refresh :=
             if (optToJs body.refreshToken).truthy then some (optToJs body.refreshToken)
             else ts.refresh }) := by
  have hoa : optToJs body.accessToken = JsVal.str a := by
    rw [ha]
    rfl
  by_cases hb : (optToJs body.refreshToken).truthy
  · simp [handleTokenRefresh, hrt, hoa, hb, setAccessToken, setRefreshToken]
  · simp [handleTokenRefresh, hrt, hoa, hb, setAccessToken, setRefreshToken]

theorem run401s_while_refreshing (reqs : List Req) (st : ClientState)
    (hflag : st.isRefreshing = true)
    (hreqs : ∀ q ∈ reqs, q.url ≠ "/api/auth/login" ∧ q.retry = false) :
    run401s st reqs
      = (reqs.map (fun _ => RespAction.enqueued),
         { st with failedQueue := st.failedQueue ++ reqs }) := by
  induction reqs generalizing st with
  | nil => simp [run401s]
  | cons r rs ih =>
      obtain ⟨hu, hr⟩ := hreqs r (by simp)
      have hstep : onResponseError st (some 401) r
          = (RespAction.enqueued, r, { st with failedQueue := st.failedQueue ++ [r] }) := by
        simp [onResponseError, hu, hr, hflag]
      have ih' := ih { st with failedQueue := st.failedQueue ++ [r] }
        (by simpa using hflag) (fun q hq => hreqs q (by simp [hq]))
      simp [run401s, hstep, ih']

/-! ## Claim theorems (refresh protocol) -/

/-- C5: whatever the outcome of the refresh attempt (resolution, rejection
for any reason, or a throw inside `handleTokenRefresh`, all of which
surface as the `Except.error` result), after the cycle the queue is empty
and the in-flight flag is false, and the settlements handed to the queued
continuations are exactly one per queued request, in arrival order: all
replayed with the new token when the refresh succeeded, all rejected with
the failure when it failed. -/
theorem c5_queue_drained_once (st : ClientState) (req : Req) (call : RefreshCall) :
    (refreshCycle st req call).2.failedQueue = [] ∧
    (refreshCycle st req call).2.isRefreshing = false ∧
    ((∃ tok store', handleTokenRefresh st.store call = (Except.ok tok, store') ∧
        (refreshCycle st req call).1.queued
          = st.failedQueue.map (fun r => Settled.replayed (replayWith store' tok r))) ∨
     (∃ e store', handleTokenRefresh st.store call = (Except.error e, store') ∧
        (refreshCycle st req call).1.queued
          = st.failedQueue.map (fun _ => Settled.rejected e))) := by
  rcases h : handleTokenRefresh st.store call with ⟨res, store'⟩
  cases res with
  | ok tok =>
      exact ⟨by simp [refreshCycle, h], by simp [refreshCycle, h],
             Or.inl ⟨tok, store', rfl, by simp [refreshCycle, h]⟩⟩
  | error e =>
      exact ⟨by simp [refreshCycle, h], by simp [refreshCycle, h],
             Or.inr ⟨e, store', rfl, by simp [refreshCycle, h]⟩⟩

/-- C3: every failing refresh attempt — the stored refresh token untruthy
(covered by the final conjunct), a network error, or a non-success
response — removes both stored token entries from storage, rejects the
originating request's chain with the refresh failure, and rejects every
queued request with the same failure. -/
theorem c3_refresh_failure (st : ClientState) (req : Req) (call : RefreshCall)
    (e : RefreshErr) (h : (handleTokenRefresh st.store call).1 = Except.error e) :
    (handleTokenRefresh st.store call).2.access = none ∧
    (handleTokenRefresh st.store call).2.refresh = none ∧
    (refreshCycle st req call).1.original = Settled.rejected e ∧
    (refreshCycle st req call).1.queued
      = st.failedQueue.map (fun _ => Settled.rejected e) ∧
    (∀ ts : TokenStore, (getRefreshToken ts).truthy = false →
      (handleTokenRefresh ts call).1 = Except.error RefreshErr.noRefreshToken) := by
  have hclear := handleTokenRefresh_error_clear st.store call e h
  rcases hh : handleTokenRefresh st.store call with ⟨res, store'⟩
  rw [hh] at h hclear
  simp only at h hclear
  subst h
  subst hclear
  refine ⟨?_, ?_, ?_, ?_, ?_⟩
  · simp [clearTokens]
  · simp [clearTokens]
  · simp [refreshCycle, hh]
  · simp [refreshCycle, hh]
  · intro ts htr
    simp [handleTokenRefresh, htr]

/-- Witness for `c3_refresh_failure`: a refresh attempt that fails with a
network error / non-success response, against a state with one queued
request. -/
theorem c3_refresh_failure_witness :
    (refreshCycle
        { store := { access := some (JsVal.str "A1"), refresh := some (JsVal.str "R1") },
          isRefreshing := true,
          failedQueue := [{ url := "/b", authorization := none, retry := false }] }
        { url := "/a", authorization := none, retry := true }
        RefreshCall.failure).1.original
      = Settled.rejected RefreshErr.callFailed :=
  (c3_refresh_failure
    { store := { access := some (JsVal.str "A1"), refresh := some (JsVal.str "R1") },
      isRefreshing := true,
      failedQueue := [{ url := "/b", authorization := none, retry := false }] }
    { url := "/a", authorization := none, retry := true }
    RefreshCall.failure RefreshErr.callFailed (by rfl)).2.2.1

/-- C4: when the refresh call succeeds with access token `a` (and a truthy
refresh token was stored, as a refresh attempt requires), the new access
token is persisted unconditionally; the stored refresh token is unchanged
when the response carried none, and changes only if the response carried
one; and the originating request plus every queued request are replayed
carrying `Authorization: Bearer a`, each otherwise untouched. -/
theorem c4_refresh_success (st : ClientState) (req : Req) (body : RefreshBody)
    (a : String)
    (hrt : (getRefreshToken st.store).truthy = true)
    (ha : body.accessToken = some a) :
    (refreshCycle st req (RefreshCall.success body)).2.store.access
        = some (JsVal.str a) ∧
    (body.refreshToken = none →
      (refreshCycle st req (RefreshCall.success body)).2.store.refresh
        = st.store.refresh) ∧
    ((refreshCycle st req (RefreshCall.success body)).2.store.refresh
        ≠ st.store.refresh → body.refreshToken ≠ none) ∧
    (∃ r' : Req,
      (refreshCycle st req (RefreshCall.success body)).1.original
          = Settled.replayed r' ∧
      r'.authorization = some ("Bearer " ++ a) ∧
      r'.url = req.url ∧ r'.retry = req.retry) ∧
    ((refreshCycle st req (RefreshCall.success body)).1.queued.length
        = st.failedQueue.length) ∧
    (∀ s ∈ (refreshCycle st req (RefreshCall.success body)).1.queued,
      ∃ q ∈ st.failedQueue, ∃ r' : Req,
        s = Settled.replayed r' ∧
        r'.authorization = some ("Bearer " ++ a) ∧
        r'.url = q.url ∧ r'.retry = q.retry) := by
  have hs := handleTokenRefresh_success_eq st.store body a hrt ha
  have hacc : ((handleTokenRefresh st.store (RefreshCall.success body)).2).access
      = some (JsVal.str a) := by rw [hs]
  refine ⟨?_, ?_, ?_, ?_, ?_, ?_⟩
  · simp [refreshCycle, hs]
  · intro hn
    simp [refreshCycle, hs, hn, optToJs, JsVal.truthy]
  · intro hch hb
    exact hch (by simp [refreshCycle, hs, hb, optToJs, JsVal.truthy])
  · have horig : (refreshCycle st req (RefreshCall.success body)).1.original
        = Settled.replayed (replayWith
            { access := some (JsVal.str a)
              refresh :=
                if (optToJs body.refreshToken).truthy then some (optToJs body.refreshToken)
                else st.store.refresh }
            (JsVal.str a) req) := by
      simp [refreshCycle, hs]
    refine ⟨_, horig, ?_, ?_, ?_⟩
    · exact replayWith_auth _ a req rfl
    · exact (replayWith_preserves _ _ req).1
    · exact (replayWith_preserves _ _ req).2
  · simp [refreshCycle, hs]
  · intro s hsin
    simp only [refreshCycle, hs] at hsin
    simp only [List.mem_map] at hsin
    obtain ⟨q, hq, hqe⟩ := hsin
    refine ⟨q, hq, _, hqe.symm, ?_, ?_, ?_⟩
    · exact replayWith_auth _ a q rfl
    · exact (replayWith_preserves _ _ q).1
    · exact (replayWith_preserves _ _ q).2

/-- Witness for `c4_refresh_success`: refresh response `{accessToken:"A2"}`
with no refresh token leaves the stored refresh token unchanged. -/
theorem c4_refresh_success_witness :
    (refreshCycle
        { store := { access := some (JsVal.str "A1"), refresh := some (JsVal.str "R1") },
          isRefreshing := true,
          failedQueue := [{ url := "/b", authorization := none, retry := false }] }
        { url := "/a", authorization := none, retry := true }
        (RefreshCall.success { accessToken := some "A2", refreshToken := none })).2.store.refresh
      = some (JsVal.str "R1") :=
  (c4_refresh_success
    { store := { access := some (JsVal.str "A1"), refresh := some (JsVal.str "R1") },
      isRefreshing := true,
      failedQueue := [{ url := "/b", authorization := none, retry := false }] }
    { url := "/a", authorization := none, retry := true }
    { accessToken := some "A2", refreshToken := none } "A2"
    (by rfl) (by rfl)).2.1 rfl

/-- C6: a 401 whose request URL is the literal login path is rejected to
the caller as-is: the interceptor takes no action, enqueues nothing,
starts no refresh, and leaves the request, the flag, the queue and the
stored tokens untouched.  (A refresh call only ever follows a
`becameRefresher` action, so none is issued.) -/
theorem c6_login_passthrough (st : ClientState) (req : Req)
    (hurl : req.url = "/api/auth/login") :
    onResponseError st (some 401) req = (RespAction.rejectOriginal, req, st) := by
  cases hr : req.retry with
  | false => simp [onResponseError, hurl, hr]
  | true => simp [onResponseError, hr]

/-- Witness for `c6_login_passthrough` at a concrete state and request. -/
theorem c6_login_passthrough_witness :
    onResponseError
        { store := { access := some (JsVal.str "A1"), refresh := some (JsVal.str "R1") },
          isRefreshing := false, failedQueue := [] }
        (some 401)
        { url := "/api/auth/login", authorization := none, retry := false }
      = (RespAction.rejectOriginal,
         { url := "/api/auth/login", authorization := none, retry := false },
         { store := { access := some (JsVal.str "A1"), refresh := some (JsVal.str "R1") },
           isRefreshing := false, failedQueue := [] }) :=
  c6_login_passthrough _ _ rfl

/-- C10: the enqueue branch stores the blocked request without marking it
as a retry, and its replay keeps `retry = false`, so a 401 on the replay
re-enters the protocol (enqueuing again or becoming the refresher,
depending on the flag); the refresher's request is marked, its replay
keeps `retry = true`, and a second 401 on it propagates unchanged. -/
theorem c10_retry_marking (st st2 : ClientState) (r : Req) (tok : JsVal)
    (ts : TokenStore)
    (hurl : r.url ≠ "/api/auth/login") (hretry : r.retry = false) :
    (st.isRefreshing = true →
      onResponseError st (some 401) r
        = (RespAction.enqueued, r,
           { st with failedQueue := st.failedQueue ++ [r] })) ∧
    (replayWith ts tok r).retry = false ∧
    ((onResponseError st2 (some 401) (replayWith ts tok r)).1
        = if st2.isRefreshing then RespAction.enqueued
          else RespAction.becameRefresher) ∧
    (replayWith ts tok { r with retry := true }).retry = true ∧
    (onResponseError st2 (some 401) (replayWith ts tok { r with retry := true }))
        = (RespAction.rejectOriginal, replayWith ts tok { r with retry := true }, st2) := by
  have hp := replayWith_preserves ts tok r
  have hpm := replayWith_preserves ts tok { r with retry := true }
  refine ⟨?_, ?_, ?_, ?_, ?_⟩
  · intro hflag
    simp [onResponseError, hurl, hretry, hflag]
  · rw [hp.2, hretry]
  · have hu2 : (replayWith ts tok r).url ≠ "/api/auth/login" := by
      rw [hp.1]; exact hurl
    have hr2 : (replayWith ts tok r).retry = false := by rw [hp.2, hretry]
    cases h2 : st2.isRefreshing with
    | false => simp [onResponseError, hu2, hr2, h2]
    | true => simp [onResponseError, hu2, hr2, h2]
  · rw [hpm.2]
  · have hr2 : (replayWith ts tok { r with retry := true }).retry = true := by
      rw [hpm.2]
    simp [onResponseError, hr2]

/-- Witness for `c10_retry_marking` at concrete states and request. -/
theorem c10_retry_marking_witness :
    (replayWith { access := some (JsVal.str "A2"), refresh := none } (JsVal.str "A2")
        { url := "/b", authorization := none, retry := false }).retry = false :=
  (c10_retry_marking
    { store := { access := none, refresh := none }, isRefreshing := true,
      failedQueue := [] }
    { store := { access := none, refresh := none }, isRefreshing := false,
      failedQueue := [] }
    { url := "/b", authorization := none, retry := false }
    (JsVal.str "A2")
    { access := some (JsVal.str "A2"), refresh := none }
    (by decide) rfl).2.1

/-- C1: when N ≥ 1 requests (none on the login path, none already marked
as a retry) all fail with 401 while no refresh is in flight and the queue
is empty, processing them in arrival order makes exactly the first one the
refresher — one `becameRefresher` action, hence exactly one refresh call —
while the other N−1 are enqueued in order; the token store is untouched by
the queueing; and when the single refresh completes, the queued N−1 all
replay with the new token on success, or all reject with the single
failure reason on failure. -/
theorem c1_single_flight (st : ClientState) (r : Req) (rs : List Req)
    (call : RefreshCall)
    (hflag : st.isRefreshing = false) (hq : st.failedQueue = [])
    (hu : r.url ≠ "/api/auth/login") (hr : r.retry = false)
    (hrs : ∀ q ∈ rs, q.url ≠ "/api/auth/login" ∧ q.retry = false) :
    (run401s st (r :: rs)).1
        = RespAction.becameRefresher :: rs.map (fun _ => RespAction.enqueued) ∧
    (run401s st (r :: rs)).1.count RespAction.becameRefresher = 1 ∧
    (run401s st (r :: rs)).2.failedQueue = rs ∧
    (run401s st (r :: rs)).2.isRefreshing = true ∧
    (run401s st (r :: rs)).2.store = st.store ∧
    (∀ tok store',
      handleTokenRefresh st.store call = (Except.ok tok, store') →
      (refreshCycle (run401s st (r :: rs)).2 { r with retry := true } call).1.queued
        = rs.map (fun q => Settled.replayed (replayWith store' tok q))) ∧
    (∀ e store',
      handleTokenRefresh st.store call = (Except.error e, store') →
      (refreshCycle (run401s st (r :: rs)).2 { r with retry := true } call).1.queued
        = rs.map (fun _ => Settled.rejected e)) := by
  have hstep : onResponseError st (some 401) r
      = (RespAction.becameRefresher, { r with retry := true },
         { st with isRefreshing := true }) := by
    simp [onResponseError, hu, hr, hflag]
  have hrun := run401s_while_refreshing rs { st with isRefreshing := true }
    (by simp) hrs
  have hfull : run401s st (r :: rs)
      = (RespAction.becameRefresher :: rs.map (fun _ => RespAction.enqueued),
         { st with isRefreshing := true, failedQueue := st.failedQueue ++ rs }) := by
    simp [run401s, hstep, hrun]
  have hnotmem : RespAction.becameRefresher ∉ rs.map (fun _ => RespAction.enqueued) := by
    simp
  refine ⟨by simp [hfull], ?_, by simp [hfull, hq], by simp [hfull], by simp [hfull],
          ?_, ?_⟩
  · rw [hfull]
    rw [List.count_cons_self, List.count_eq_zero.mpr hnotmem]
  · intro tok store' hcall
    rw [hfull]
    simp [refreshCycle, hcall, hq]
  · intro e store' hcall
    rw [hfull]
    simp [refreshCycle, hcall, hq]

/-- Witness for `c1_single_flight`: two concurrent 401s with the flag
down produce exactly one refresher and one enqueued request. -/
theorem c1_single_flight_witness :
    (run401s
        { store := { access := some (JsVal.str "A1"), refresh := some (JsVal.str "R1") },
          isRefreshing := false, failedQueue := [] }
        [{ url := "/a", authorization := none, retry := false },
         { url := "/b", authorization := none, retry := false }]).1
      = [RespAction.becameRefresher, RespAction.enqueued] :=
  (c1_single_flight
    { store := { access := some (JsVal.str "A1"), refresh := some (JsVal.str "R1") },
      isRefreshing := false, failedQueue := [] }
    { url := "/a", authorization := none, retry := false }
    [{ url := "/b", authorization := none, retry := false }]
    (RefreshCall.success { accessToken := some "A2", refreshToken := none })
    rfl rfl (by decide) rfl (by decide)).1

end ApiClientSpec
